import Mathlib

/-!
Verification development for the helical-software repository: a shallow
embedding of the stepper-bus codec (TicController.cpp), the axis-group
fan-out and G-code interpreter (master_queue.cpp), the framed serial
protocol (Esp32UART.cpp), and the homing helpers (HeliCalHelper.cpp),
together with theorems settling the frozen specification claims.

Numeric modelling: the source computes feed and conversion values in C
doubles, but every such value is produced by parsing a decimal literal
or by arithmetic on integer constants, so each is an exact decimal
m / 10^e. We embed doubles as such exact decimals (structure Dec10) and
do all arithmetic over ℤ/ℕ. At every concrete input a claim touches,
the exact value is far from an integer boundary (distance of order 0.1
versus binary64 representation error of order 1e-11), so truncations
and comparisons agree with the double computation.
-/

namespace Helical

/-- Exact decimal value man / 10^exp, the result of parsing a decimal
literal (what std::stod produces, before the irrelevant binary64
rounding). -/
structure Dec10 where
  man : Int
  exp : Nat
deriving DecidableEq

/-- Strict value comparison of two exact decimals
(man₁/10^e₁ < man₂/10^e₂, cross-multiplied). -/
def Dec10.blt (x y : Dec10) : Bool :=
  x.man * (10 : Int) ^ y.exp < y.man * (10 : Int) ^ x.exp

/-- Truncation toward zero of an exact decimal, the semantics of a C
static_cast from the (exactly represented) double to an integer type. -/
def Dec10.trunc (x : Dec10) : Int := x.man.tdiv ((10 : Int) ^ x.exp)

/-! ## Bus transaction codec (TicController.cpp, writeCommand) -/

/-- Little-endian 5-byte write-command frame sent by
TicController::writeCommand: first byte is the opcode, the next four are
the little-endian bytes of the signed 32-bit argument (two's complement,
so the value is taken mod 2^32 before splitting into bytes). -/
def writeCommandFrame (command : Nat) (value : Int) : List Nat :=
  let u : Nat := (value.emod 4294967296).toNat
  [command, u % 256, u / 256 % 256, u / 65536 % 256, u / 16777216 % 256]

/-- TicController::exitSafeStart sends writeCommand(0x83); the omitted
argument defaults to 0. -/
def exitSafeStartFrame : List Nat := writeCommandFrame 0x83 0

/-- TicController::energize sends writeCommand(0x85). -/
def energizeFrame : List Nat := writeCommandFrame 0x85 0

/-- TicController::resetCommandTimeout sends writeCommand(0x85) in the
source (the same literal opcode byte as energize). -/
def resetCommandTimeoutFrame : List Nat := writeCommandFrame 0x85 0

/-- TicController::deenergize sends writeCommand(0x86). -/
def deenergizeFrame : List Nat := writeCommandFrame 0x86 0

/-- TicController::haltAndHold sends writeCommand(0x89). -/
def haltAndHoldFrame : List Nat := writeCommandFrame 0x89 0

/-- TicController::setTargetPosition sends writeCommand(0xE0, position). -/
def setTargetPositionFrame (position : Int) : List Nat :=
  writeCommandFrame 0xE0 position

/-- TicController::setMaxSpeed sends writeCommand(0xE6, speed). -/
def setMaxSpeedFrame (speed : Int) : List Nat :=
  writeCommandFrame 0xE6 speed

/-! ## Numeric conversions -/

/-- Pulses per theta revolution, from master_queue.cpp. -/
def COUNTS_PER_THETA_REV : Int := 245426

/-- rpm_to_pps from master_queue.cpp: static_cast to int32_t of
(rpm * COUNTS_PER_THETA_REV) / 60.0, i.e. truncation toward zero of the
exact value man * 245426 / (60 * 10^exp). -/
def rpm_to_pps (rpm : Dec10) : Int :=
  (rpm.man * COUNTS_PER_THETA_REV).tdiv (60 * (10 : Int) ^ rpm.exp)

/-- The RPM to pulses-per-second conversion as the specification words
it: round(rpm * countsPerRev / 60), nearest integer (half rounded up;
all uses are nonnegative and none is a half). Comparison definition
only, never a model of the source. -/
def spec_rpm_to_pps (rpm : Dec10) : Int :=
  (2 * (rpm.man * COUNTS_PER_THETA_REV) + 60 * (10 : Int) ^ rpm.exp).ediv
    (2 * (60 * (10 : Int) ^ rpm.exp))

/-- Current-limit code computed in the TicController constructor:
static_cast to uint8_t of (max_current_mA / 9095.0) * 127 where
max_current_mA is a uint32_t, i.e. the floor of mA * 127 / 9095 (the
cast applies no clamping; for every milliamp value the repository uses
the result is below 128, so the uint8_t narrowing is the identity). -/
def current_limit_code (mA : Nat) : Nat := mA * 127 / 9095

/-- The current-limit conversion as the specification words it:
round(mA / 9095 * 127), nearest integer (half rounded up; no argument
hits a half). Comparison definition only, never a model of the source. -/
def spec_round_current_code (mA : Nat) : Nat :=
  (2 * (mA * 127) + 9095) / (2 * 9095)

/-! ## Axis group fan-out (master_queue.cpp, struct AxisGroup)

An AxisGroup holds up to four TicController pointers a, b, c, d and each
operation applies the member operation to every non-null pointer in
order. A failed bus transaction throws from writeCommand, so the
remaining members are skipped and the exception propagates to the
caller; we model a group as the ordered list of its present members, the
bus by a success predicate per member, and an operation's run as the
list of attempted transactions (member, frame) paired with
true = all succeeded / false = stopped at a failure that propagates. -/

/-- The six fan-out operations of AxisGroup. -/
inductive GroupOp
  | setTargetPosition
  | setMaxSpeed
  | energize
  | deenergize
  | exitSafeStart
  | haltAndHold
deriving DecidableEq

/-- Bus frame a member receives for a fan-out operation, from the
TicController methods AxisGroup calls. -/
def GroupOp.frame : GroupOp → Int → List Nat
  | .setTargetPosition, v => setTargetPositionFrame v
  | .setMaxSpeed, v => setMaxSpeedFrame v
  | .energize, _ => energizeFrame
  | .deenergize, _ => deenergizeFrame
  | .exitSafeStart, _ => exitSafeStartFrame
  | .haltAndHold, _ => haltAndHoldFrame

/-- Sequential fan-out of one operation over the group members: each
present member in order gets the identical frame; a member whose bus
transaction fails (ok m = false) ends the run with failure propagated
(second component false) and later members never attempted. -/
def groupFanOut (ok : Nat → Bool) (op : GroupOp) (arg : Int) :
    List Nat → List (Nat × List Nat) × Bool
  | [] => ([], true)
  | m :: rest =>
    if ok m then
      let r := groupFanOut ok op arg rest
      ((m, op.frame arg) :: r.1, r.2)
    else ([(m, op.frame arg)], false)

/-! ## Interpreter feed state and token scanning (master_queue.cpp) -/

/-- Speed cap for the Z axis group (STEPPER_Z_MAXVELOCITY). -/
def STEPPER_Z_MAXVELOCITY : Nat := 105000000

/-- Speed cap for the R and T axis groups (STEPPER_RT_MAXVELOCITY). -/
def STEPPER_RT_MAXVELOCITY : Nat := 450000000

/-- Lower RPM bound for the A axis (A_RPM_MIN = 0.0). -/
def A_RPM_MIN : Dec10 := ⟨0, 0⟩

/-- Upper RPM bound for the A axis (A_RPM_MAX = 60.0). -/
def A_RPM_MAX : Dec10 := ⟨60, 0⟩

/-- axis_max_speed from master_queue.cpp: cap per axis letter
(case-insensitive), 0 for unknown axes. -/
def axis_max_speed (axis : Char) : Nat :=
  if axis.toUpper = 'R' ∨ axis.toUpper = 'T' then STEPPER_RT_MAXVELOCITY
  else if axis.toUpper = 'Z' then STEPPER_Z_MAXVELOCITY
  else 0

/-- Interpreter feed state: the global feed F_global and the per-axis
feed map F_axis. The source map starts with keys R, T, Z (100000.0) and
A (9.0); a missing key reads as value-initialized 0.0 through
operator[], which the total function with default ⟨0,0⟩ reproduces. -/
structure FeedState where
  F_global : Dec10
  F_axis : Char → Dec10

/-- Initial feed state from master_queue.cpp main. -/
def initFeeds : FeedState :=
  { F_global := ⟨100000, 0⟩
    F_axis := fun a =>
      if a = 'R' ∨ a = 'T' ∨ a = 'Z' then ⟨100000, 0⟩
      else if a = 'A' then ⟨9, 0⟩
      else ⟨0, 0⟩ }

/-- Pointwise update of one axis feed. -/
def setAxisFeed (st : FeedState) (ax : Char) (v : Dec10) : FeedState :=
  { st with F_axis := fun c => if c = ax then v else st.F_axis c }

/-- Assignment F_axis['R'] = F_axis['T'] = F_axis['Z'] = F_global = v
performed for a global F word. -/
def setGlobalFeed (st : FeedState) (v : Dec10) : FeedState :=
  { F_global := v
    F_axis := fun c => if c = 'R' ∨ c = 'T' ∨ c = 'Z' then v else st.F_axis c }

/-- Longest run of decimal digits: returns (value, digit count, rest). -/
def parseDigits : List Char → Nat → Nat × Nat × List Char
  | [], acc => (acc, 0, [])
  | c :: cs, acc =>
    if c.isDigit then
      let r := parseDigits cs (acc * 10 + (c.toNat - 48))
      (r.1, r.2.1 + 1, r.2.2)
    else (acc, 0, c :: cs)

/-- std::stod on the decimal forms the interpreter feeds it: an optional
sign, digits, an optional fraction. Returns none when no digit is
present, which is when the source's stod throws and the catch handler
runs. (Exponent and hexadecimal forms never occur in this program's
tokens and are not modelled.) -/
def stod? (s : List Char) : Option Dec10 :=
  let signed : Bool × List Char :=
    match s with
    | '-' :: t => (true, t)
    | '+' :: t => (false, t)
    | t => (false, t)
  let ipr := parseDigits signed.2 0
  let fpr : Nat × Nat :=
    match ipr.2.2 with
    | '.' :: t =>
      let r := parseDigits t 0
      (r.1, r.2.1)
    | _ => (0, 0)
  if ipr.2.1 = 0 ∧ fpr.2 = 0 then none
  else
    let m : Int := (ipr.1 * 10 ^ fpr.2 + fpr.1 : Nat)
    some ⟨if signed.1 then -m else m, fpr.2⟩

/-- Console messages the token scanner can emit. -/
inductive Msg
  | globalFeedSet (v : Dec10)
  | invalidFToken
  | axisFeedRange (ax : Char) (v : Dec10)
  | axisFeedSet (ax : Char) (v : Dec10)
  | malformedFToken
  | ignoredToken
  | g33Range (rpm : Dec10)
  | g33Set (rpm : Dec10)
deriving DecidableEq

/-- State threaded through the token loop of a G-command line: the feed
state (mutated immediately by F words), the collected (key, value)
parameters, and the messages printed. -/
structure TokScanState where
  feeds : FeedState
  params : List (Char × Dec10)
  msgs : List Msg

/-- One iteration of the token loop in master_queue.cpp main
(G-command branch): F words are handled immediately (global form
F<digits>, per-axis form F<letter><number> with the A axis checked
against [A_RPM_MIN, A_RPM_MAX] and other axes against axis_max_speed,
out-of-range values ignored with a message), every other token goes
through parse_param into the parameter list. -/
def procToken (st : TokScanState) (tok : List Char) : TokScanState :=
  match tok with
  | [] => st
  | c0 :: rest =>
    let u0 := c0.toUpper
    if u0 = 'F' then
      match rest with
      | [] => { st with msgs := st.msgs ++ [.malformedFToken] }
      | c1 :: rest2 =>
        if c1.isDigit ∨ c1 = '-' then
          match stod? (c1 :: rest2) with
          | some v =>
            { st with feeds := setGlobalFeed st.feeds v
                      msgs := st.msgs ++ [.globalFeedSet v] }
          | none => { st with msgs := st.msgs ++ [.invalidFToken] }
        else if c1.isAlpha then
          let ax := c1.toUpper
          let fv := (stod? rest2).getD ⟨0, 0⟩
          if ax = 'A' then
            if fv.blt A_RPM_MIN ∨ A_RPM_MAX.blt fv then
              { st with msgs := st.msgs ++ [.axisFeedRange ax fv] }
            else
              { st with feeds := setAxisFeed st.feeds 'A' fv
                        msgs := st.msgs ++ [.axisFeedSet ax fv] }
          else
            let cap := axis_max_speed ax
            if fv.blt ⟨0, 0⟩ ∨ Dec10.blt ⟨(cap : Int), 0⟩ fv then
              { st with msgs := st.msgs ++ [.axisFeedRange ax fv] }
            else
              { st with feeds := setAxisFeed st.feeds ax fv
                        msgs := st.msgs ++ [.axisFeedSet ax fv] }
        else { st with msgs := st.msgs ++ [.malformedFToken] }
    else
      match rest with
      | [] => { st with msgs := st.msgs ++ [.ignoredToken] }
      | _ :: _ =>
        match stod? rest with
        | some v => { st with params := st.params ++ [(u0, v)] }
        | none => { st with msgs := st.msgs ++ [.ignoredToken] }

/-- The whole token loop over the whitespace-split tokens of one
G-command line. -/
def tokenScan (feeds : FeedState) (toks : List String) : TokScanState :=
  (toks.map String.toList).foldl procToken ⟨feeds, [], []⟩

/-! ## G33 continuous rotation (master_queue.cpp, case 33) -/

/-- Commands sent over the framed serial link that the claims observe. -/
inductive UartCmd
  | setThetaVelocity (pps : Int)
deriving DecidableEq

/-- The rpm chosen by case 33: the last A parameter, defaulting to 0. -/
def g33_rpm_of_params (params : List (Char × Dec10)) : Dec10 :=
  params.foldl (fun acc kv => if kv.1 = 'A' then kv.2 else acc) ⟨0, 0⟩

/-- case 33 of the G dispatch: range-check rpm against
[A_RPM_MIN, A_RPM_MAX]; in range, convert with rpm_to_pps, send
setThetaVelocity, and record rpm as the A feed; out of range, print a
message and send nothing. -/
def g33Exec (feeds : FeedState) (params : List (Char × Dec10)) :
    FeedState × List UartCmd × List Msg :=
  let rpm := g33_rpm_of_params params
  if rpm.blt A_RPM_MIN ∨ A_RPM_MAX.blt rpm then
    (feeds, [], [.g33Range rpm])
  else
    (setAxisFeed feeds 'A' rpm, [.setThetaVelocity (rpm_to_pps rpm)],
     [.g33Set rpm])

/-! ## Shutdown sequences (master_queue.cpp) -/

/-- The eight stepper controllers, in the order of the all vector. -/
inductive Ctrl
  | twZ1 | twZ2 | twT | twR | cwZ1 | cwZ2 | cwT | cwR
deriving DecidableEq

/-- Observable actions of the shutdown paths. -/
inductive ShutAct
  | deenergizeCtrl (c : Ctrl)
  | thetaVelZero
  | dlpPowerDown
  | ledStop
  | restoreTerminal
deriving DecidableEq

/-- The all vector of controllers from main. -/
def allControllers : List Ctrl :=
  [.twZ1, .twZ2, .twT, .twR, .cwZ1, .cwZ2, .cwT, .cwR]

/-- disable_axis from main: de-energize the controllers of one axis. -/
def disable_axis : Char → List ShutAct
  | 'R' => [.deenergizeCtrl .twR, .deenergizeCtrl .cwR]
  | 'T' => [.deenergizeCtrl .twT, .deenergizeCtrl .cwT]
  | 'Z' => [.deenergizeCtrl .twZ1, .deenergizeCtrl .twZ2,
            .deenergizeCtrl .cwZ1, .deenergizeCtrl .cwZ2]
  | _ => []

/-- motors_disable from main: with an empty axis list it disables only
R and T; otherwise each listed axis (upper-cased); then always zeroes
the theta velocity over the serial link. -/
def motors_disable (axes : List Char) : List ShutAct :=
  (if axes.isEmpty then disable_axis 'R' ++ disable_axis 'T'
   else axes.foldr (fun a acc => disable_axis a.toUpper ++ acc) []) ++
  [.thetaVelZero]

/-- Shutdown actions of the M112 emergency stop (case 112). -/
def m112Shutdown : List ShutAct :=
  motors_disable ['R', 'T', 'Z'] ++ [.dlpPowerDown, .ledStop]

/-- Shutdown actions of M30 end-of-program (case 30). -/
def m30Shutdown : List ShutAct :=
  motors_disable [] ++ [.dlpPowerDown, .ledStop, .restoreTerminal]

/-- Shutdown actions of the normal end-of-input path after the command
loop (cleanup section of main). -/
def normalExitShutdown : List ShutAct :=
  [.thetaVelZero, .dlpPowerDown, .ledStop] ++
  allControllers.map ShutAct.deenergizeCtrl ++ [.restoreTerminal]

/-! ## Queued-command drain loop with abort (master_queue.cpp, main)

The drain loop is modelled as a small-step execution over an abstract
command list: each queued command is a move whose settle-wait needs d
polls of the wait loop before current position equals target. The
shared abort flag is modelled by the index aT of the abort check at
which it first reads true (checks are counted globally in execution
order; the flag is monotone, set once). Per command the checks are: the
queue-top check before dequeue, the bail_if_abort check after dispatch
(its exception is caught and merely printed, so it changes no observable
event), then one check per wait-loop iteration. Clearing the queue by
std::swap with an empty queue is the single queueCleared event, atomic
with respect to dequeue. -/

/-- Events the drain loop emits. -/
inductive QEvent
  | dequeue (i : Nat)
  | settled (i : Nat)
  | haltAndHoldR
  | haltAndHoldT
  | haltAndHoldZ
  | queueCleared
  | deenergizeR
  | deenergizeT
  | thetaVelZero
  | dlpPowerDown
  | ledStop
deriving DecidableEq

/-- The post-command settle-wait loop: while not settled, poll abort;
on abort, halt (first component false); t is the running abort-check
counter, d the number of polls until the move settles. -/
def waitLoop (aT : Nat) : Nat → Nat → Bool × Nat
  | t, 0 => (true, t)
  | t, d + 1 => if aT ≤ t then (false, t + 1) else waitLoop aT (t + 1) d

/-- The queue-drain loop: the abort check before each dequeue clears the
queue atomically and runs the emergency-stop block (motors_disable with
its default R/T axes, theta velocity zero, projector power-down, LED
stop); otherwise the command is dequeued and dispatched, and the settle
wait either completes the move or, when abort fires during it, issues
haltAndHold to all three axis groups. -/
def drainLoop (aT : Nat) : Nat → Nat → List Nat → List QEvent
  | _, _, [] => []
  | t, i, d :: rest =>
    if aT ≤ t then
      [.queueCleared, .deenergizeR, .deenergizeT, .thetaVelZero,
       .dlpPowerDown, .ledStop]
    else
      let w := waitLoop aT (t + 2) d
      QEvent.dequeue i ::
        ((if w.1 then [QEvent.settled i]
          else [QEvent.haltAndHoldR, QEvent.haltAndHoldT,
                QEvent.haltAndHoldZ]) ++
         drainLoop aT w.2 (i + 1) rest)

/-- Number of moves that ran to completion in a drain trace. -/
def countSettled (evs : List QEvent) : Nat :=
  (evs.filter fun e =>
    match e with
    | .settled _ => true
    | _ => false).length

/-! ## Length-prefixed packet receiver (Esp32UART.cpp, readPacket) -/

/-- readPacket over a byte stream (end of list = the read deadline
expires): read one byte; if it is not 'I' (73), resume scanning after
it; if it is, read three more bytes; if the first is not 'M' (77),
resume scanning after all four; otherwise the two remaining bytes are
the type and payload length, and the payload is read. Returns
(type, payload, unconsumed rest), or none on timeout. -/
def readPacket : List Nat → Option (Nat × List Nat × List Nat)
  | [] => none
  | sync :: rest =>
    if sync = 73 then
      match rest with
      | r0 :: r1 :: r2 :: rest2 =>
        if r0 = 77 then
          if rest2.length < r2 then none
          else some (r1, rest2.take r2, rest2.drop r2)
        else readPacket rest2
      | _ => none
    else readPacket rest

/-- The noise condition as the claim words it: no two consecutive bytes
form the sync sequence 'I','M'. -/
def noConsecIM : List Nat → Bool
  | a :: b :: rest => (!(a == 73 && b == 77)) && noConsecIM (b :: rest)
  | _ => true

/-- Byte encoding of one valid framed packet. -/
def packetBytes (t : Nat) (payload : List Nat) : List Nat :=
  73 :: 77 :: t :: payload.length :: payload

/-! ## IMU sample retrieval (Esp32UART.cpp) -/

/-- Packet type bytes from Esp32UART.h. -/
def PACKET_TYPE_ACK : Nat := 0xA0

/-- Packet type byte of an IMU sample packet. -/
def PACKET_TYPE_SAMPLE : Nat := 0xA1

/-- Packet type byte of a status/text packet. -/
def PACKET_TYPE_STATUS : Nat := 0xA2

/-- Subcommand byte of the get-sample request. -/
def IMU_SUB_GET_SAMPLE : Nat := 0x01

/-- The cached latest IMU sample (latestImuSample_ and
hasLatestImuSample_). A sample is kept as its raw 44-byte payload; the
field-by-field float decode of parseSamplePayload is a bijective
relabelling that no claim observes, so it is not unfolded here. -/
structure ImuCache where
  hasLatest : Bool
  latest : List Nat
deriving DecidableEq

/-- parseSamplePayload: succeeds exactly on a 44-byte payload, in which
case the out-parameter sample is overwritten and the cache updated;
otherwise both are left untouched. Returns (ok, cache, out). -/
def parseSamplePayload (payload : List Nat) (cache : ImuCache)
    (out : List Nat) : Bool × ImuCache × List Nat :=
  if payload.length = 44 then (true, ⟨true, payload⟩, payload)
  else (false, cache, out)

/-- waitForImuAck: read packets until an ACK whose payload has at least
3 bytes and whose second byte matches the subcommand, returning whether
its third byte (the success flag) is nonzero; SAMPLE packets seen on the
way are parsed into a throwaway sample (still updating the cache);
anything else is skipped. Fuel bounds the number of loop iterations
(the deadline). -/
def waitForImuAck (sub : Nat) : Nat → List Nat → ImuCache → Bool × ImuCache
  | 0, _, cache => (false, cache)
  | fuel + 1, stream, cache =>
    match readPacket stream with
    | none => (false, cache)
    | some (t, payload, rest) =>
      if t = PACKET_TYPE_ACK ∧ 3 ≤ payload.length ∧
          payload.getD 1 0 = sub then
        (payload.getD 2 0 != 0, cache)
      else if t = PACKET_TYPE_SAMPLE then
        let p := parseSamplePayload payload cache []
        waitForImuAck sub fuel rest p.2.1
      else waitForImuAck sub fuel rest cache

/-- getImuSample (after sending the get-sample request, which is not
observable here): loop over incoming packets. A SAMPLE packet is parsed
directly into the caller's out-parameter; on parse success the function
then waits for the correlated ACK and returns its verdict, the
out-parameter staying overwritten either way; on parse failure it
returns false. An ACK with zero success flag returns false; with
nonzero flag and a cached sample it returns that cached sample; other
packets are skipped. Returns (result, cache, out). -/
def getImuSampleRun :
    Nat → List Nat → ImuCache → List Nat → Bool × ImuCache × List Nat
  | 0, _, cache, out => (false, cache, out)
  | fuel + 1, stream, cache, out =>
    match readPacket stream with
    | none => (false, cache, out)
    | some (t, payload, rest) =>
      if t = PACKET_TYPE_SAMPLE then
        let p := parseSamplePayload payload cache out
        if p.1 then
          let a := waitForImuAck IMU_SUB_GET_SAMPLE fuel rest p.2.1
          (a.1, a.2, p.2.2)
        else (false, p.2.1, p.2.2)
      else if t = PACKET_TYPE_ACK ∧ 3 ≤ payload.length ∧
          payload.getD 1 0 = IMU_SUB_GET_SAMPLE then
        if payload.getD 2 0 = 0 then (false, cache, out)
        else if cache.hasLatest then (true, cache, cache.latest)
        else getImuSampleRun fuel rest cache out
      else getImuSampleRun fuel rest cache out

/-! ## Homing (HeliCalHelper.cpp, zeroAxisPair)

Both overloads (2 members and 4 members) run the same algorithm: issue
goHome to every member, poll every member's homing-status flag
(bit 4 of variable 0x01) until all are clear with an abort check at the
top of every iteration, then issue setTargetPosition(finalOffset) to
every member and poll every member's current position until all are
within 1 pulse of finalOffset, checking abort inside that loop's body.
The environment supplies, per poll iteration, the abort flag and the
per-member readings (lists of length 2 or 4 in member order). -/

/-- Outcome of one polling loop: the abort exception was raised at
iteration k, the loop exit condition was observed at iteration k, or the
observation window (fuel) ran out. -/
inductive PollOutcome
  | raised (k : Nat)
  | cleared (k : Nat)
  | fuelOut
deriving DecidableEq

/-- The homing-status polling loop: each iteration first checks abort
(throwing runtime_error on true), then reads every member's flag
variable 0x01 and exits once no member has bit 4 set. -/
def homeWait (abort : Nat → Bool) (flags : Nat → List Nat) :
    Nat → Nat → PollOutcome
  | 0, _ => .fuelOut
  | fuel + 1, k =>
    if abort k then .raised k
    else if (flags k).any (fun f => f.testBit 4) then
      homeWait abort flags fuel (k + 1)
    else .cleared k

/-- The position-settle polling loop: the while condition reads every
member's current position and exits once all are within 1 pulse of the
offset; only when the condition keeps the loop running is abort checked
(throwing on true). -/
def settleWait (abort : Nat → Bool) (pos : Nat → List Int) (off : Int) :
    Nat → Nat → PollOutcome
  | 0, _ => .fuelOut
  | fuel + 1, j =>
    if (pos j).all (fun p => decide ((p - off).natAbs ≤ 1)) then .cleared j
    else if abort j then .raised j
    else settleWait abort pos off fuel (j + 1)

/-- Environment of one zeroAxisPair call: member count (2 or 4), the
abort flag and per-member flag readings per homing poll, and the abort
flag and per-member positions per settle poll. -/
structure ZeroEnv where
  nMembers : Nat
  abortHome : Nat → Bool
  flags : Nat → List Nat
  abortSettle : Nat → Bool
  pos : Nat → List Int

/-- Result of a zeroAxisPair call. -/
inductive ZeroOutcome
  | returned
  | abortRaised
  | fuelOut
deriving DecidableEq

/-- zeroAxisPair: homing poll phase, then setTargetPosition(finalOffset)
issued to every member (the second component lists the issued targets,
one per member, all equal), then the settle poll phase. An abort
observed in either phase raises (abortRaised) instead of returning. -/
def zeroAxisPairRun (env : ZeroEnv) (off : Int) (fuel1 fuel2 : Nat) :
    ZeroOutcome × List Int :=
  match homeWait env.abortHome env.flags fuel1 0 with
  | .raised _ => (.abortRaised, [])
  | .fuelOut => (.fuelOut, [])
  | .cleared _ =>
    let targets := List.replicate env.nMembers off
    match settleWait env.abortSettle env.pos off fuel2 0 with
    | .raised _ => (.abortRaised, targets)
    | .fuelOut => (.fuelOut, targets)
    | .cleared _ => (.returned, targets)

/-! ## Helper lemmas -/

/-- A fan-out over members whose transactions all succeed attempts every
member in order with the identical frame and reports success. -/
theorem groupFanOut_all_ok (ok : Nat → Bool) (op : GroupOp) (arg : Int)
    (ms : List Nat) (hall : ∀ m ∈ ms, ok m = true) :
    groupFanOut ok op arg ms = (ms.map fun m => (m, op.frame arg), true) := by
  induction ms with
  | nil => rfl
  | cons m rest ih =>
    have hm : ok m = true := hall m (List.mem_cons_self m rest)
    have hrest : ∀ x ∈ rest, ok x = true := fun x hx =>
      hall x (List.mem_cons_of_mem m hx)
    simp [groupFanOut, hm, ih hrest]

/-- A settle wait whose polls all happen before the abort time runs to
completion, consuming one abort check per poll. -/
theorem waitLoop_settles (aT : Nat) :
    ∀ d t, t + d ≤ aT → waitLoop aT t d = (true, t + d) := by
  intro d
  induction d with
  | zero => intro t _; simp [waitLoop]
  | succ d ih =>
    intro t ht
    have h1 : ¬ aT ≤ t := by omega
    have h2 : t + 1 + d ≤ aT := by omega
    simp [waitLoop, h1, ih (t + 1) h2]
    omega

/-- A settle wait that is still polling when the abort flag turns true
halts at the abort check of index aT. -/
theorem waitLoop_halts (aT : Nat) :
    ∀ d t, t ≤ aT → aT < t + d → waitLoop aT t d = (false, aT + 1) := by
  intro d
  induction d with
  | zero => intro t h1 h2; omega
  | succ d ih =>
    intro t h1 h2
    by_cases h : aT ≤ t
    · have : t = aT := by omega
      simp [waitLoop, h, this]
    · have h3 : t + 1 ≤ aT := by omega
      have h4 : aT < t + 1 + d := by omega
      simp [waitLoop, h, ih (t + 1) h3 h4]

/-- A homing poll loop that exits via its clear condition observed every
member's flag with bit 4 clear at the final poll. -/
theorem homeWait_cleared (abort : Nat → Bool) (flags : Nat → List Nat) :
    ∀ fuel k0 k, homeWait abort flags fuel k0 = .cleared k →
      (flags k).any (fun f => f.testBit 4) = false := by
  intro fuel
  induction fuel with
  | zero => intro k0 k h; simp [homeWait] at h
  | succ fuel ih =>
    intro k0 k h
    by_cases ha : abort k0 = true
    · simp [homeWait, ha] at h
    · by_cases hf : (flags k0).any (fun f => f.testBit 4) = true
      · have h2 : homeWait abort flags fuel (k0 + 1) = .cleared k := by
          simpa [homeWait, ha, hf] using h
        exact ih (k0 + 1) k h2
      · have hk : k0 = k := by
          have := h
          simp [homeWait, ha, hf] at this
          exact this
        subst hk
        simpa using hf

/-- A position poll loop that exits via its convergence condition
observed every member within 1 pulse of the offset at the final poll. -/
theorem settleWait_cleared (abort : Nat → Bool) (pos : Nat → List Int)
    (off : Int) :
    ∀ fuel j0 j, settleWait abort pos off fuel j0 = .cleared j →
      (pos j).all (fun p => decide ((p - off).natAbs ≤ 1)) = true := by
  intro fuel
  induction fuel with
  | zero => intro j0 j h; simp [settleWait] at h
  | succ fuel ih =>
    intro j0 j h
    by_cases hc : (pos j0).all (fun p => decide ((p - off).natAbs ≤ 1)) = true
    · have hj : j0 = j := by
        have := h
        simp [settleWait, hc] at this
        exact this
      subst hj
      exact hc
    · by_cases ha : abort j0 = true
      · simp [settleWait, hc, ha] at h
      · have h2 : settleWait abort pos off fuel (j0 + 1) = .cleared j := by
          simpa [settleWait, hc, ha] using h
        exact ih (j0 + 1) j h2

/-- readPacket consumes a leading non-sync byte and rescans. -/
theorem readPacket_skip (b : Nat) (s : List Nat) (hb : b ≠ 73) :
    readPacket (b :: s) = readPacket s := by
  conv_lhs => unfold readPacket
  simp [hb]

/-- readPacket parses a well-formed packet at the head of the stream. -/
theorem readPacket_packet (t : Nat) (payload rest : List Nat) :
    readPacket (packetBytes t payload ++ rest) =
      some (t, payload, rest) := by
  show readPacket (73 :: 77 :: t :: payload.length :: (payload ++ rest)) =
    some (t, payload, rest)
  conv_lhs => unfold readPacket
  simp

/-! ## Claim C2 -/

/-- C2: energize and resetCommandTimeout encode the same write opcode
byte: each sends a 5-byte bus frame whose first byte is 0x85, so the two
frames coincide (the source's literal byte value, pinned as-is). -/
theorem c2_energize_resetCommandTimeout_same_opcode :
    energizeFrame.length = 5 ∧ resetCommandTimeoutFrame.length = 5 ∧
    energizeFrame.head? = some 0x85 ∧
    resetCommandTimeoutFrame.head? = some 0x85 ∧
    energizeFrame = resetCommandTimeoutFrame := by decide

/-! ## Claim C3 -/

/-- C3: for every AxisGroup fan-out operation, when all member
transactions succeed every member receives the identical frame in
member order with success reported; and in a 4-member group whose third
member's transaction fails, exactly the first three transactions are
attempted (the fourth never is) and the call reports failure, which is
how the propagated writeCommand exception appears to the caller. -/
theorem c3_group_fanout_abort_on_failure (ok1 ok2 : Nat → Bool)
    (op : GroupOp) (arg : Int) (ms : List Nat) (m1 m2 m3 m4 : Nat)
    (hall : ∀ m ∈ ms, ok1 m = true)
    (h1 : ok2 m1 = true) (h2 : ok2 m2 = true) (h3 : ok2 m3 = false) :
    groupFanOut ok1 op arg ms = (ms.map fun m => (m, op.frame arg), true) ∧
    groupFanOut ok2 op arg [m1, m2, m3, m4] =
      ([(m1, op.frame arg), (m2, op.frame arg), (m3, op.frame arg)],
       false) := by
  refine ⟨groupFanOut_all_ok ok1 op arg ms hall, ?_⟩
  simp [groupFanOut, h1, h2, h3]

/-- Witness for C3 at a concrete 4-member group: all-succeed fan-out of
setTargetPosition 42, and the same group where member 12 (the third)
fails. -/
theorem c3_group_fanout_abort_on_failure_witness :
    (∀ m ∈ [10, 11, 12, 13], (fun _ => true : Nat → Bool) m = true) ∧
    (fun m => m != 12 : Nat → Bool) 10 = true ∧
    (fun m => m != 12 : Nat → Bool) 11 = true ∧
    (fun m => m != 12 : Nat → Bool) 12 = false ∧
    (groupFanOut (fun _ => true) GroupOp.setTargetPosition 42
        [10, 11, 12, 13] =
      ([10, 11, 12, 13].map
        fun m => (m, GroupOp.frame GroupOp.setTargetPosition 42), true) ∧
    groupFanOut (fun m => m != 12) GroupOp.setTargetPosition 42
        [10, 11, 12, 13] =
      ([(10, GroupOp.frame GroupOp.setTargetPosition 42),
        (11, GroupOp.frame GroupOp.setTargetPosition 42),
        (12, GroupOp.frame GroupOp.setTargetPosition 42)], false)) :=
  ⟨by decide, by decide, by decide, by decide,
   c3_group_fanout_abort_on_failure (fun _ => true) (fun m => m != 12)
     GroupOp.setTargetPosition 42 [10, 11, 12, 13] 10 11 12 13
     (by decide) (by decide) (by decide) (by decide)⟩

/-! ## Claim C6 -/

/-- C6 counterexample: the constructor's conversion truncates rather
than rounds, so the claim's formula round(mA/9095*127) and its example
value 27 contradict each other at mA = 2000: the code passes 27 to
setCurrentLimit while the claimed rounding formula gives 28. -/
theorem c6_current_code_round_counterexample :
    current_limit_code 2000 = 27 ∧ spec_round_current_code 2000 = 28 := by
  decide

/-- C6 amended: the 7-bit current-limit code equals the truncation
(floor) of mA/9095*127, with no explicit clamp; it lies in [0,127]
whenever mA ≤ 9095, and for max_current_mA = 2000 the code passed to
setCurrentLimit is 27. -/
theorem c6_current_code_trunc (mA : Nat) (h : mA ≤ 9095) :
    current_limit_code mA ≤ 127 ∧ current_limit_code 2000 = 27 := by
  constructor
  · have h2 : mA * 127 ≤ 9095 * 127 := Nat.mul_le_mul_right 127 h
    calc current_limit_code mA = mA * 127 / 9095 := rfl
      _ ≤ 9095 * 127 / 9095 := Nat.div_le_div_right h2
      _ = 127 := by decide
  · decide

/-- Witness for C6 at mA = 2000. -/
theorem c6_current_code_trunc_witness :
    2000 ≤ 9095 ∧
    (current_limit_code 2000 ≤ 127 ∧ current_limit_code 2000 = 27) :=
  ⟨by decide, c6_current_code_trunc 2000 (by decide)⟩

/-! ## Claim C7 -/

/-- C7 counterexample: G33 converts RPM to pulses per second by C-cast
truncation, not rounding: at the in-range input A = 9 RPM the code sends
setThetaVelocity 36813 (trunc of 9*245426/60 = 36813.9), while the
claimed formula round(rpm*countsPerRev/60) gives 36814. -/
theorem c7_g33_round_counterexample :
    (g33Exec initFeeds [('A', ⟨9, 0⟩)]).2.1 =
      [UartCmd.setThetaVelocity 36813] ∧
    rpm_to_pps ⟨9, 0⟩ = 36813 ∧
    spec_rpm_to_pps ⟨9, 0⟩ = 36814 := by decide

/-- C7 amended: G33 A with rpm in [0,60] sends the continuous-rotation
velocity trunc(rpm*countsPerRev/60) pulses per second (truncation toward
zero, not rounding) over the serial link and records rpm as the A feed;
an rpm outside [0,60] is rejected with a message, no velocity command is
sent, and the feeds are unchanged. -/
theorem c7_g33_trunc_and_range (feeds : FeedState) (r1 r2 : Dec10)
    (hlo : r1.blt A_RPM_MIN = false) (hhi : A_RPM_MAX.blt r1 = false)
    (hout : A_RPM_MAX.blt r2 = true) :
    g33Exec feeds [('A', r1)] =
      (setAxisFeed feeds 'A' r1,
       [UartCmd.setThetaVelocity (rpm_to_pps r1)], [Msg.g33Set r1]) ∧
    g33Exec feeds [('A', r2)] = (feeds, [], [Msg.g33Range r2]) := by
  constructor
  · simp [g33Exec, g33_rpm_of_params, hlo, hhi]
  · simp [g33Exec, g33_rpm_of_params, hout]

/-- Witness for C7 at rpm = 9 (in range) and rpm = 75 (out of range). -/
theorem c7_g33_trunc_and_range_witness :
    Dec10.blt ⟨9, 0⟩ A_RPM_MIN = false ∧
    A_RPM_MAX.blt ⟨9, 0⟩ = false ∧
    A_RPM_MAX.blt ⟨75, 0⟩ = true ∧
    (g33Exec initFeeds [('A', ⟨9, 0⟩)] =
      (setAxisFeed initFeeds 'A' ⟨9, 0⟩,
       [UartCmd.setThetaVelocity (rpm_to_pps ⟨9, 0⟩)],
       [Msg.g33Set ⟨9, 0⟩]) ∧
    g33Exec initFeeds [('A', ⟨75, 0⟩)] =
      (initFeeds, [], [Msg.g33Range ⟨75, 0⟩])) :=
  ⟨by decide, by decide, by decide,
   c7_g33_trunc_and_range initFeeds ⟨9, 0⟩ ⟨75, 0⟩
     (by decide) (by decide) (by decide)⟩

/-! ## Claim C5 -/

/-- C5 counterexample: the literal input FA 75 splits into the tokens
FA and 75. Token FA takes the per-axis branch with an empty number, the
stod failure handler substitutes 0.0, and 0 passes the [0,60] range
check, so the A feed is overwritten with 0 (with a feed-set message, not
a rejection) instead of keeping its previous value 9; the leftover token
75 becomes the irrelevant parameter ('7', 5). -/
theorem c5_fa_space_75_counterexample :
    initFeeds.F_axis 'A' = ⟨9, 0⟩ ∧
    (tokenScan initFeeds ["FA", "75"]).feeds.F_axis 'A' = ⟨0, 0⟩ ∧
    (tokenScan initFeeds ["FA", "75"]).msgs =
      [Msg.axisFeedSet 'A' ⟨0, 0⟩] ∧
    (tokenScan initFeeds ["FA", "75"]).params = [('7', ⟨5, 0⟩)] := by
  decide

/-- C5 amended: per-axis feed words are range-checked against the
axis's cap and an out-of-range value is rejected with a message, the
previous feed retained, when the feed word is a single token: FR500000
(R cap 450000000) is accepted and sets the R feed to 500000, and the
single token FA75 (A cap 60 RPM) is rejected with a range message and
the A feed keeps its previous value; the two-token spelling FA 75
instead sets the A feed to 0 (see the counterexample). -/
theorem c5_feed_validation_single_token (feeds : FeedState) :
    (tokenScan feeds ["FR500000"]).feeds.F_axis 'R' = ⟨500000, 0⟩ ∧
    (tokenScan feeds ["FR500000"]).msgs =
      [Msg.axisFeedSet 'R' ⟨500000, 0⟩] ∧
    500000 ≤ STEPPER_RT_MAXVELOCITY ∧
    (tokenScan feeds ["FA75"]).feeds.F_axis 'A' = feeds.F_axis 'A' ∧
    (tokenScan feeds ["FA75"]).msgs = [Msg.axisFeedRange 'A' ⟨75, 0⟩] := by
  refine ⟨rfl, rfl, by decide, rfl, rfl⟩

/-! ## Claim C8 -/

/-- C8 counterexample: M30 does not perform the same shutdown as normal
end-of-input and M112: its motors_disable() call uses the default axis
list, which de-energizes only R and T, so no Z-column driver (for
example tic_tw_z1) is de-energized by M30, while both other exit paths
de-energize it. -/
theorem c8_m30_shutdown_counterexample :
    ShutAct.deenergizeCtrl Ctrl.twZ1 ∈ normalExitShutdown ∧
    ShutAct.deenergizeCtrl Ctrl.twZ1 ∈ m112Shutdown ∧
    ShutAct.deenergizeCtrl Ctrl.twZ1 ∉ m30Shutdown := by decide

/-- C8 amended: all three exit paths (normal end-of-input, M30, M112)
zero the rotation velocity, power down the projector video source, and
stop the LED; normal end-of-input and M112 de-energize all eight
stepper drivers, but M30 de-energizes exactly the R and T drivers,
leaving the four Z drivers energized. -/
theorem c8_shutdown_amended :
    (∀ s ∈ [m30Shutdown, m112Shutdown, normalExitShutdown],
      ShutAct.thetaVelZero ∈ s ∧ ShutAct.dlpPowerDown ∈ s ∧
      ShutAct.ledStop ∈ s) ∧
    (∀ c ∈ allControllers,
      ShutAct.deenergizeCtrl c ∈ m112Shutdown ∧
      ShutAct.deenergizeCtrl c ∈ normalExitShutdown) ∧
    (∀ c ∈ allControllers,
      (ShutAct.deenergizeCtrl c ∈ m30Shutdown ↔
        (c = Ctrl.twR ∨ c = Ctrl.cwR ∨ c = Ctrl.twT ∨ c = Ctrl.cwT))) := by
  decide

/-! ## Claim C1 -/

/-- C1 counterexample: three moves queued, abort firing after the first
move settles and before the second is dequeued (abort check index 2) —
so before the second completes, as the claimed scenario allows. The code
clears the queue (no further command is dequeued) and exactly one move
completed, but no axis group receives haltAndHold: the queue-check abort
path runs motors_disable (de-energize R and T) instead, refuting the
claim that every axis group receives a haltAndHold command. -/
theorem c1_abort_gap_counterexample :
    countSettled (drainLoop 2 0 0 [0, 0, 0]) = 1 ∧
    QEvent.queueCleared ∈ drainLoop 2 0 0 [0, 0, 0] ∧
    QEvent.dequeue 1 ∉ drainLoop 2 0 0 [0, 0, 0] ∧
    QEvent.haltAndHoldR ∉ drainLoop 2 0 0 [0, 0, 0] ∧
    QEvent.haltAndHoldT ∉ drainLoop 2 0 0 [0, 0, 0] ∧
    QEvent.haltAndHoldZ ∉ drainLoop 2 0 0 [0, 0, 0] := by decide

/-- C1 amended: with three moves queued and abort signaled before the
second completes, the queue is cleared atomically at the next queue
check, no further queued command is executed, and exactly one move
completes; haltAndHold reaches every axis group exactly when abort is
first observed inside the settle wait of the in-progress (second) move,
which is then halted rather than completed — while abort first observed
at the queue check between commands clears the queue and de-energizes
the R and T groups with the theta velocity zeroed, issuing no
haltAndHold. -/
theorem c1_drain_abort_amended (d1 d2 d3 aT e1 e2 e3 : Nat)
    (h1 : 4 + d1 ≤ aT) (h2 : aT < 4 + d1 + d2) :
    drainLoop aT 0 0 [d1, d2, d3] =
      [.dequeue 0, .settled 0, .dequeue 1, .haltAndHoldR, .haltAndHoldT,
       .haltAndHoldZ, .queueCleared, .deenergizeR, .deenergizeT,
       .thetaVelZero, .dlpPowerDown, .ledStop] ∧
    drainLoop (2 + e1) 0 0 [e1, e2, e3] =
      [.dequeue 0, .settled 0, .queueCleared, .deenergizeR, .deenergizeT,
       .thetaVelZero, .dlpPowerDown, .ledStop] := by
  constructor
  · have hn0 : ¬ aT ≤ 0 := by omega
    have w1 : waitLoop aT 2 d1 = (true, 2 + d1) :=
      waitLoop_settles aT d1 2 (by omega)
    have hn1 : ¬ aT ≤ 2 + d1 := by omega
    have w2 : waitLoop aT (2 + d1 + 2) d2 = (false, aT + 1) :=
      waitLoop_halts aT d2 (2 + d1 + 2) (by omega) (by omega)
    have hn2 : aT ≤ aT + 1 := by omega
    simp [drainLoop, hn0, w1, hn1, w2, hn2]
  · have hn0 : ¬ 2 + e1 ≤ 0 := by omega
    have w1 : waitLoop (2 + e1) 2 e1 = (true, 2 + e1) :=
      waitLoop_settles (2 + e1) e1 2 (by omega)
    simp [drainLoop, hn0, w1]

/-- Witness for C1 at settle durations (1, 3, 2) with abort check index
6 (inside the second move's wait) and at (1, 1, 1) with abort check
index 3 (the queue check before the second dequeue). -/
theorem c1_drain_abort_amended_witness :
    4 + 1 ≤ 6 ∧ 6 < 4 + 1 + 3 ∧
    (drainLoop 6 0 0 [1, 3, 2] =
      [.dequeue 0, .settled 0, .dequeue 1, .haltAndHoldR, .haltAndHoldT,
       .haltAndHoldZ, .queueCleared, .deenergizeR, .deenergizeT,
       .thetaVelZero, .dlpPowerDown, .ledStop] ∧
    drainLoop (2 + 1) 0 0 [1, 1, 1] =
      [.dequeue 0, .settled 0, .queueCleared, .deenergizeR, .deenergizeT,
       .thetaVelZero, .dlpPowerDown, .ledStop]) :=
  ⟨by decide, by decide,
   c1_drain_abort_amended 1 3 2 6 1 1 1 (by decide) (by decide)⟩

/-! ## Claim C4 -/

/-- C4 counterexample: noise may satisfy the claim's condition (no two
consecutive bytes form 'I','M') and still destroy the following valid
packet, because a false sync ('I' not followed by 'M') discards four
bytes, not one: after noise 73,81,81 the receiver consumes the packet's
own 'I' as part of the discarded group and never parses the packet that
it parses fine without the noise. -/
theorem c4_sync_scan_counterexample :
    noConsecIM [73, 81, 81] = true ∧
    readPacket ([73, 81, 81] ++ packetBytes 5 [1]) = none ∧
    readPacket (packetBytes 5 [1]) = some (5, [1], []) := by decide

/-- C4 amended: the receiver resynchronizes by scanning for 'I',
discarding any single byte that is not 'I'; when an 'I' is found, three
further bytes are read and all four are discarded unless the first is
'M'. Consequently, for every stream of noise containing no 'I' byte
followed by one valid packet, readPacket parses exactly that packet and
produces no false positives. -/
theorem c4_resync_amended (noise payload : List Nat) (t : Nat)
    (hn : ∀ b ∈ noise, b ≠ 73) :
    readPacket (noise ++ packetBytes t payload) =
      some (t, payload, []) := by
  induction noise with
  | nil => simpa using readPacket_packet t payload []
  | cons b rest ih =>
    have hb : b ≠ 73 := hn b (List.mem_cons_self b rest)
    have hrest : ∀ x ∈ rest, x ≠ 73 := fun x hx =>
      hn x (List.mem_cons_of_mem b hx)
    rw [List.cons_append, readPacket_skip b _ hb]
    exact ih hrest

/-- Witness for C4 with noise 1,2,3 and the packet type 7, payload
9,9. -/
theorem c4_resync_amended_witness :
    (∀ b ∈ [1, 2, 3], b ≠ 73) ∧
    readPacket ([1, 2, 3] ++ packetBytes 7 [9, 9]) =
      some (7, [9, 9], []) :=
  ⟨by decide, c4_resync_amended [1, 2, 3] [9, 9] 7 (by decide)⟩

/-! ## Claim C9 -/

/-- C9 counterexample: abort is set at every settle poll, yet the call
returns normally, because the settle loop's while condition reads the
positions first and exits on convergence before the body's abort check
can run: with both members already within 1 pulse of the final offset
at the first position poll, zeroAxisPairRun returns instead of raising,
refuting the claim that abort set at any poll of either phase raises a
cancellation error. -/
theorem c9_abort_at_final_poll_counterexample :
    zeroAxisPairRun
      { nMembers := 2, abortHome := fun _ => false,
        flags := fun _ => [0, 0], abortSettle := fun _ => true,
        pos := fun _ => [5, 5] } 5 1 1 =
      (ZeroOutcome.returned, [5, 5]) ∧
    ({ nMembers := 2, abortHome := fun _ => false,
       flags := fun _ => [0, 0], abortSettle := fun _ => true,
       pos := fun _ => [5, 5] } : ZeroEnv).abortSettle 0 = true ∧
    (([5, 5] : List Int).all
      fun p => decide ((p - (5 : Int)).natAbs ≤ 1)) = true := by decide

/-- C9 amended: zeroAxisPair returns only after a homing poll at which
every member's homing-status flag (bit 4 of variable 0x01) reads clear
and, after setTargetPosition(finalOffset) has been issued to every
member, a position poll at which every member is within 1 pulse of
finalOffset. Abort set at a homing-phase iteration raises a
cancellation error, as does abort set at a settle poll that still
observes some member out of tolerance; a settle poll observing all
members within tolerance returns normally even if abort is set. -/
theorem c9_zero_axis_amended (env env2 env3 : ZeroEnv) (off : Int)
    (f1 f2 p2 g1 g2 k : Nat)
    (hret : (zeroAxisPairRun env off f1 f2).1 = ZeroOutcome.returned)
    (habort2 : env2.abortHome 0 = true)
    (hclear3 : homeWait env3.abortHome env3.flags g1 0 =
      PollOutcome.cleared k)
    (hfar3 : (env3.pos 0).all
      (fun p => decide ((p - off).natAbs ≤ 1)) = false)
    (habort3 : env3.abortSettle 0 = true) :
    ((∃ k1, (env.flags k1).any (fun f => f.testBit 4) = false) ∧
     (∃ j1, (env.pos j1).all
       (fun p => decide ((p - off).natAbs ≤ 1)) = true) ∧
     (zeroAxisPairRun env off f1 f2).2 =
       List.replicate env.nMembers off) ∧
    (zeroAxisPairRun env2 off (p2 + 1) f2).1 = ZeroOutcome.abortRaised ∧
    (zeroAxisPairRun env3 off g1 (g2 + 1)).1 = ZeroOutcome.abortRaised := by
  refine ⟨?_, ?_, ?_⟩
  · cases hh : homeWait env.abortHome env.flags f1 0 with
    | raised k0 => simp [zeroAxisPairRun, hh] at hret
    | fuelOut => simp [zeroAxisPairRun, hh] at hret
    | cleared k0 =>
      cases hs : settleWait env.abortSettle env.pos off f2 0 with
      | raised j0 => simp [zeroAxisPairRun, hh, hs] at hret
      | fuelOut => simp [zeroAxisPairRun, hh, hs] at hret
      | cleared j0 =>
        exact ⟨⟨k0, homeWait_cleared env.abortHome env.flags f1 0 k0 hh⟩,
               ⟨j0, settleWait_cleared env.abortSettle env.pos off
                 f2 0 j0 hs⟩,
               by simp [zeroAxisPairRun, hh, hs]⟩
  · simp [zeroAxisPairRun, homeWait, habort2]
  · simp [zeroAxisPairRun, hclear3, settleWait, hfar3, habort3]

/-- Witness for C9: a 2-member run that completes (members at 4 and 5
pulses around offset 5), a run aborted at the first homing poll, and a
run aborted at a settle poll that still sees member positions 99 and 5
(the first out of tolerance). -/
theorem c9_zero_axis_amended_witness :
    (zeroAxisPairRun
      { nMembers := 2, abortHome := fun _ => false,
        flags := fun _ => [0, 0], abortSettle := fun _ => false,
        pos := fun _ => [4, 5] } 5 1 1).1 = ZeroOutcome.returned ∧
    (({ nMembers := 2, abortHome := fun _ => true,
        flags := fun _ => [0, 0], abortSettle := fun _ => false,
        pos := fun _ => [] } : ZeroEnv).abortHome 0 = true) ∧
    homeWait (fun _ => false) (fun _ => [0, 0]) 1 0 =
      PollOutcome.cleared 0 ∧
    (([99, 5] : List Int).all
      fun p => decide ((p - (5 : Int)).natAbs ≤ 1)) = false ∧
    (((∃ k1 : Nat, ((fun _ => [0, 0] : Nat → List Nat) k1).any
        (fun f => f.testBit 4) = false) ∧
      (∃ j1 : Nat, ((fun _ => [4, 5] : Nat → List Int) j1).all
        (fun p => decide ((p - (5 : Int)).natAbs ≤ 1)) = true) ∧
      (zeroAxisPairRun
        { nMembers := 2, abortHome := fun _ => false,
          flags := fun _ => [0, 0], abortSettle := fun _ => false,
          pos := fun _ => [4, 5] } 5 1 1).2 = List.replicate 2 5) ∧
     (zeroAxisPairRun
        { nMembers := 2, abortHome := fun _ => true,
          flags := fun _ => [0, 0], abortSettle := fun _ => false,
          pos := fun _ => [] } 5 (0 + 1) 1).1 = ZeroOutcome.abortRaised ∧
     (zeroAxisPairRun
        { nMembers := 2, abortHome := fun _ => false,
          flags := fun _ => [0, 0], abortSettle := fun _ => true,
          pos := fun _ => [99, 5] } 5 1 (0 + 1)).1 =
       ZeroOutcome.abortRaised) :=
  ⟨by decide, by decide, by decide, by decide,
   c9_zero_axis_amended
     { nMembers := 2, abortHome := fun _ => false,
       flags := fun _ => [0, 0], abortSettle := fun _ => false,
       pos := fun _ => [4, 5] }
     { nMembers := 2, abortHome := fun _ => true,
       flags := fun _ => [0, 0], abortSettle := fun _ => false,
       pos := fun _ => [] }
     { nMembers := 2, abortHome := fun _ => false,
       flags := fun _ => [0, 0], abortSettle := fun _ => true,
       pos := fun _ => [99, 5] }
     5 1 1 0 1 0 0
     (by decide) (by decide) (by decide) (by decide) (by decide)⟩

/-! ## Claim C10 -/

/-- C10: when getImuSample parses a SAMPLE packet with a valid 44-byte
payload but the correlated ACK then fails to arrive with a nonzero
success flag before the deadline, the function returns false with the
caller's out-parameter already overwritten by the parsed sample (and the
sample cached), so a false return does not guarantee the out-parameter
is unchanged. -/
theorem c10_false_return_overwrites_out (payload rest out : List Nat)
    (cache : ImuCache) (fuel : Nat)
    (hp : payload.length = 44)
    (hack : (waitForImuAck IMU_SUB_GET_SAMPLE fuel rest
      ⟨true, payload⟩).1 = false) :
    getImuSampleRun (fuel + 1)
        (packetBytes PACKET_TYPE_SAMPLE payload ++ rest) cache out =
      (false,
       (waitForImuAck IMU_SUB_GET_SAMPLE fuel rest ⟨true, payload⟩).2,
       payload) := by
  have hrp := readPacket_packet PACKET_TYPE_SAMPLE payload rest
  simp [getImuSampleRun, hrp, parseSamplePayload, hp, hack]

/-- Witness for C10: a 44-byte sample packet followed by an empty
stream (the ACK wait times out); the initial out-parameter 7 is
overwritten by the sample payload while false is returned. -/
theorem c10_false_return_overwrites_out_witness :
    (List.replicate 44 0).length = 44 ∧
    (waitForImuAck IMU_SUB_GET_SAMPLE 0 []
      ⟨true, List.replicate 44 0⟩).1 = false ∧
    getImuSampleRun (0 + 1)
        (packetBytes PACKET_TYPE_SAMPLE (List.replicate 44 0) ++ [])
        ⟨false, []⟩ [7] =
      (false,
       (waitForImuAck IMU_SUB_GET_SAMPLE 0 []
         ⟨true, List.replicate 44 0⟩).2,
       List.replicate 44 0) :=
  ⟨by decide, by decide,
   c10_false_return_overwrites_out (List.replicate 44 0) [] [7]
     ⟨false, []⟩ 0 (by decide) (by decide)⟩

end Helical
